import Mathlib

/-!
Shallow embedding of the FastAPI sandbox application (`src/main.py`):
pydantic models become structures with explicit validation predicates,
path-operation handlers become pure functions, `HTTPException` and
pydantic validation errors become `Except` results, and Python dicts
become association lists over a `Value` type.
-/

namespace FastApiSandbox

/-- The `HairColor` enum of `main.py`. -/
inductive HairColor where
  | white
  | brown
  | black
  | blonde
  | red
  | blue
deriving DecidableEq, Repr

/-- The `PersonBase` pydantic model: field types only; the declared
constraints live in `PersonBase.validate`. -/
structure PersonBase where
  first_name : String
  last_name : String
  age : Int
  hair_color : Option HairColor
  is_married : Option Bool
deriving DecidableEq, Repr

/-- The declared field constraints of `PersonBase`:
`first_name` and `last_name` have `min_length=1, max_length=50`,
`age` has `gt=0, le=1000`; the optional fields carry no constraint. -/
def PersonBase.validate (p : PersonBase) : Bool :=
  decide (1 ≤ p.first_name.length) && decide (p.first_name.length ≤ 50) &&
  decide (1 ≤ p.last_name.length) && decide (p.last_name.length ≤ 50) &&
  decide (0 < p.age) && decide (p.age ≤ 1000)

/-- The `Person` model: `PersonBase` plus `password` (`min_length=8`). -/
structure Person extends PersonBase where
  password : String
deriving DecidableEq, Repr

/-- Constraints of `Person`: those of `PersonBase` plus
`password` with `min_length=8`. -/
def Person.validate (p : Person) : Bool :=
  p.toPersonBase.validate && decide (8 ≤ p.password.length)

/-- The `PersonOut` model: exactly the fields of `PersonBase`, nothing more. -/
structure PersonOut extends PersonBase
deriving DecidableEq, Repr

/-- The `Location` model: `city`, `state`, `country`, each a required
string with `min_length=1, max_length=50`. -/
structure Location where
  city : String
  state : String
  country : String
deriving DecidableEq, Repr

/-- Constraints of `Location`. -/
def Location.validate (l : Location) : Bool :=
  decide (1 ≤ l.city.length) && decide (l.city.length ≤ 50) &&
  decide (1 ≤ l.state.length) && decide (l.state.length ≤ 50) &&
  decide (1 ≤ l.country.length) && decide (l.country.length ≤ 50)

/-- The `LoginOut` model: `username` (`max_length=20`) and `message`
(defaulted to the fixed success string). -/
structure LoginOut where
  username : String
  message : String
deriving DecidableEq, Repr

/-- A pydantic validation error, as raised when constructing a model
whose field values violate the declared constraints. -/
structure ValidationError where
  msg : String
deriving DecidableEq, Repr

/-- A Python value as it appears in a pydantic `.dict()` result:
strings, ints, booleans, `HairColor` enum members, or `None`. -/
inductive Value where
  | str (s : String)
  | int (i : Int)
  | bool (b : Bool)
  | hair (h : HairColor)
  | null
deriving DecidableEq, Repr

/-- An optional `HairColor` as a dict value. -/
def optHairValue : Option HairColor → Value
  | some h => Value.hair h
  | none => Value.null

/-- An optional `Bool` as a dict value. -/
def optBoolValue : Option Bool → Value
  | some b => Value.bool b
  | none => Value.null

/-- `PersonBase.dict()`: the fields in declaration order. -/
def PersonBase.dict (p : PersonBase) : List (String × Value) :=
  [("first_name", Value.str p.first_name),
   ("last_name", Value.str p.last_name),
   ("age", Value.int p.age),
   ("hair_color", optHairValue p.hair_color),
   ("is_married", optBoolValue p.is_married)]

/-- `Person.dict()`: the base fields followed by the subclass field
`password`, matching pydantic field ordering. -/
def Person.dict (p : Person) : List (String × Value) :=
  p.toPersonBase.dict ++ [("password", Value.str p.password)]

/-- `PersonOut.dict()`: exactly the base fields. -/
def PersonOut.dict (p : PersonOut) : List (String × Value) :=
  p.toPersonBase.dict

/-- `Location.dict()`. -/
def Location.dict (l : Location) : List (String × Value) :=
  [("city", Value.str l.city),
   ("state", Value.str l.state),
   ("country", Value.str l.country)]

/-- Python `d1.update(d2)` on dicts, as association lists: keys of `d1`
keep their position but take the value from `d2` when present there, and
keys of `d2` absent from `d1` are appended in order. -/
def dictUpdate (d₁ d₂ : List (String × Value)) : List (String × Value) :=
  d₁.map (fun kv =>
    match d₂.lookup kv.1 with
    | some v => (kv.1, v)
    | none => kv) ++
  d₂.filter (fun kv => (d₁.lookup kv.1).isNone)

/-- `fastapi.HTTPException`, reduced to the fields the app sets. -/
structure HTTPException where
  status_code : Nat
  detail : String
deriving DecidableEq, Repr

/-- POST `/person/new` (`create_person`): the handler returns the `Person`
body, and the declared `response_model=PersonOut` serializes only the
`PersonBase` fields of it. -/
def create_person (person : Person) : PersonOut :=
  { toPersonBase := person.toPersonBase }

/-- GET `/person/detail` (`show_person`, query version): returns the
single-entry dict `{name: age}`, where `name` is optional (default
`None`) and `age` is a required string. -/
def show_person_query (name : Option String) (age : String) :
    List (Option String × String) :=
  [(name, age)]

/-- The fixed in-memory list `persons = [1, 2, 3, 4, 5, 6]`. -/
def persons : List Int := [1, 2, 3, 4, 5, 6]

/-- GET `/person/detail/{person_id}` (`show_person`, path version):
raises 404 when `person_id` is not in `persons`, otherwise returns
`{person_id: 'It exists!'}`. -/
def show_person_path (person_id : Int) :
    Except HTTPException (List (Int × String)) :=
  if person_id ∉ persons then
    Except.error ⟨404, "This person doesn\x27t exist!"⟩
  else
    Except.ok [(person_id, "It exists!")]

/-- PUT `/person/{person_id}` (`update_person`): builds `person.dict()`,
merges `location.dict()` into it with `dict.update`, and returns the
merged mapping. `person_id` is not used by the body of the handler. -/
def update_person (person_id : Int) (person : Person) (location : Location) :
    List (String × Value) :=
  dictUpdate person.dict location.dict

/-- Constructing `LoginOut(username=username)`: pydantic validates the
`max_length=20` constraint at construction and raises a validation error
when it fails; `message` takes its declared default. -/
def LoginOut.new (username : String) : Except ValidationError LoginOut :=
  if username.length ≤ 20 then
    Except.ok ⟨username, "Login Succesfuly!"⟩
  else
    Except.error ⟨"ensure this value has at most 20 characters"⟩

/-- POST `/login` (`login`): constructs `LoginOut(username=username)`;
the `password` form field is ignored. -/
def login (username password : String) : Except ValidationError LoginOut :=
  LoginOut.new username

/-- POST `/contact` (`contact`): returns the raw `user_agent` header
value; every form field and the `ads` cookie are ignored. -/
def contact (first_name last_name email message : String)
    (user_agent ads : Option String) : Option String :=
  user_agent

/-- `fastapi.UploadFile`, reduced to the attributes the app reads:
`filename`, `content_type`, and the byte content behind `file.read()`. -/
structure UploadFile where
  filename : String
  content_type : String
  file : List UInt8
deriving DecidableEq, Repr

/-- A value in the `/post-image` response dict: a string or a number. -/
inductive ImgValue where
  | str (s : String)
  | num (q : ℚ)
deriving DecidableEq, Repr

/-- Python `round` to an integer: nearest integer, ties to even. -/
def roundHalfEven (q : ℚ) : Int :=
  if q - ⌊q⌋ < 1 / 2 then ⌊q⌋
  else if 1 / 2 < q - ⌊q⌋ then ⌊q⌋ + 1
  else if ⌊q⌋ % 2 = 0 then ⌊q⌋ else ⌊q⌋ + 1

/-- Python `round(q, ndigits=2)`: nearest multiple of `1/100`,
ties to even. -/
def pyRound2 (q : ℚ) : ℚ :=
  (roundHalfEven (q * 100) : ℚ) / 100

/-- POST `/post-image` (`post_image`): returns the filename, the declared
content type, and `round(len(image.file.read()) / 1024, ndigits=2)`. -/
def post_image (image : UploadFile) : List (String × ImgValue) :=
  [("Filename", ImgValue.str image.filename),
   ("Format", ImgValue.str image.content_type),
   ("Size(kb)", ImgValue.num (pyRound2 ((image.file.length : ℚ) / 1024)))]

/-! Concrete sample data used by the witness theorems. -/

/-- A concrete valid `Person` body. -/
def samplePerson : Person :=
  ⟨⟨"Arisaurio", "Rex", 17, some HairColor.blue, some false⟩, "password"⟩

/-- A concrete valid `Location` body. -/
def sampleLocation : Location :=
  ⟨"Ixtapaluca", "Mexico", "Mexico"⟩

/-- C1: for every valid `Person` payload, `create_person` returns a
`PersonOut` whose fields are exactly the `PersonBase` fields of the
input, and its dict has no `password` key. -/
theorem create_person_strips_password (p : Person) (h : p.validate = true) :
    (create_person p).dict = p.toPersonBase.dict ∧
    ((create_person p).dict).lookup "password" = Option.none ∧
    "password" ∉ ((create_person p).dict).map Prod.fst := by
  refine ⟨rfl, rfl, ?_⟩
  have hkeys : ((create_person p).dict).map Prod.fst =
      ["first_name", "last_name", "age", "hair_color", "is_married"] := rfl
  rw [hkeys]
  decide

/-- Witness for C1 at `samplePerson`. -/
theorem create_person_strips_password_witness :
    samplePerson.validate = true ∧
    ((create_person samplePerson).dict = samplePerson.toPersonBase.dict ∧
     ((create_person samplePerson).dict).lookup "password" = Option.none ∧
     "password" ∉ ((create_person samplePerson).dict).map Prod.fst) :=
  ⟨by decide, create_person_strips_password samplePerson (by decide)⟩

/-- C2: for every `person_id > 0`, the path-parameter detail handler
returns `{person_id: 'It exists!'}` iff `person_id ∈ persons`, and
raises a 404 with the fixed detail message iff `person_id ∉ persons`. -/
theorem show_person_path_membership (person_id : Int) (h : 0 < person_id) :
    (show_person_path person_id = Except.ok [(person_id, "It exists!")] ↔
      person_id ∈ persons) ∧
    (show_person_path person_id =
        Except.error ⟨404, "This person doesn\x27t exist!"⟩ ↔
      person_id ∉ persons) := by
  by_cases hm : person_id ∈ persons <;>
    simp [show_person_path, hm]

/-- Witness for C2 at `person_id = 3`. -/
theorem show_person_path_membership_witness :
    0 < (3 : Int) ∧
    ((show_person_path 3 = Except.ok [((3 : Int), "It exists!")] ↔
       (3 : Int) ∈ persons) ∧
     (show_person_path 3 =
         Except.error ⟨404, "This person doesn\x27t exist!"⟩ ↔
       (3 : Int) ∉ persons)) :=
  ⟨by decide, show_person_path_membership 3 (by decide)⟩

/-- C3: for every valid `Person` and `Location` body, the update-person
result contains every field of both with its submitted value, and the
two key sets are disjoint. -/
theorem update_person_merges_all_fields (person_id : Int) (p : Person)
    (l : Location) (hid : 0 < person_id) (hp : p.validate = true)
    (hl : l.validate = true) :
    (update_person person_id p l).lookup "first_name" =
      some (Value.str p.first_name) ∧
    (update_person person_id p l).lookup "last_name" =
      some (Value.str p.last_name) ∧
    (update_person person_id p l).lookup "age" = some (Value.int p.age) ∧
    (update_person person_id p l).lookup "hair_color" =
      some (optHairValue p.hair_color) ∧
    (update_person person_id p l).lookup "is_married" =
      some (optBoolValue p.is_married) ∧
    (update_person person_id p l).lookup "password" =
      some (Value.str p.password) ∧
    (update_person person_id p l).lookup "city" = some (Value.str l.city) ∧
    (update_person person_id p l).lookup "state" = some (Value.str l.state) ∧
    (update_person person_id p l).lookup "country" =
      some (Value.str l.country) ∧
    (p.dict.map Prod.fst).inter (l.dict.map Prod.fst) = [] :=
  ⟨rfl, rfl, rfl, rfl, rfl, rfl, rfl, rfl, rfl, rfl⟩

/-- Witness for C3 at `person_id = 1`, `samplePerson`, `sampleLocation`. -/
theorem update_person_merges_all_fields_witness :
    0 < (1 : Int) ∧ samplePerson.validate = true ∧
    sampleLocation.validate = true ∧
    (update_person 1 samplePerson sampleLocation).lookup "country" =
      some (Value.str sampleLocation.country) :=
  ⟨by decide, by decide, by decide,
   (update_person_merges_all_fields 1 samplePerson sampleLocation
     (by decide) (by decide) (by decide)).2.2.2.2.2.2.2.2.1⟩

/-- C4: for every valid update-person request, the merged mapping binds
the key `password` to the plaintext password of the `Person` body. -/
theorem update_person_echoes_password (person_id : Int) (p : Person)
    (l : Location) (hid : 0 < person_id) (hp : p.validate = true)
    (hl : l.validate = true) :
    (update_person person_id p l).lookup "password" =
      some (Value.str p.password) :=
  rfl

/-- Witness for C4 at `person_id = 1`, `samplePerson`, `sampleLocation`. -/
theorem update_person_echoes_password_witness :
    0 < (1 : Int) ∧ samplePerson.validate = true ∧
    sampleLocation.validate = true ∧
    (update_person 1 samplePerson sampleLocation).lookup "password" =
      some (Value.str samplePerson.password) :=
  ⟨by decide, by decide, by decide,
   update_person_echoes_password 1 samplePerson sampleLocation
     (by decide) (by decide) (by decide)⟩

/-- C5 fails as stated: at a 21-character username, `login` does not
return the echoing `LoginOut`; constructing it raises a validation
error. -/
theorem login_21_char_username_not_echoed :
    login "abcdefghijklmnopqrstu" "anypassword" ≠
      Except.ok ⟨"abcdefghijklmnopqrstu", "Login Succesfuly!"⟩ := by
  intro h
  exact Except.noConfusion h

/-- C5 amended: for every username of at most 20 characters and every
password, `login` returns the `LoginOut` whose `username` is the given
username unchanged and whose `message` is the fixed default. -/
theorem login_echoes_username_up_to_20 (username password : String)
    (h : username.length ≤ 20) :
    login username password = Except.ok ⟨username, "Login Succesfuly!"⟩ := by
  simp [login, LoginOut.new, h]

/-- Witness for the amended C5 at username `levbono2022`. -/
theorem login_echoes_username_up_to_20_witness :
    ("levbono2022" : String).length ≤ 20 ∧
    login "levbono2022" "secretpw" =
      Except.ok ⟨"levbono2022", "Login Succesfuly!"⟩ :=
  ⟨by decide, login_echoes_username_up_to_20 "levbono2022" "secretpw" (by decide)⟩

/-- C6: `contact` returns exactly the raw `user_agent` value, and two
requests agreeing on `user_agent` but differing in every form field and
in the `ads` cookie get the same response. -/
theorem contact_depends_only_on_user_agent
    (first_name last_name email message : String)
    (user_agent ads : Option String)
    (first_name₂ last_name₂ email₂ message₂ : String)
    (ads₂ : Option String) :
    contact first_name last_name email message user_agent ads = user_agent ∧
    contact first_name last_name email message user_agent ads =
      contact first_name₂ last_name₂ email₂ message₂ user_agent ads₂ :=
  ⟨rfl, rfl⟩

/-- The integer returned by `roundHalfEven` is within `1/2` of its
argument. -/
theorem abs_roundHalfEven_sub_le (y : ℚ) :
    |(roundHalfEven y : ℚ) - y| ≤ 1 / 2 := by
  have h₀ : (⌊y⌋ : ℚ) ≤ y := Int.floor_le y
  have h₁ : y < ⌊y⌋ + 1 := Int.lt_floor_add_one y
  unfold roundHalfEven
  split_ifs with hlt hgt hev
  · rw [abs_le]
    constructor <;> linarith
  · rw [abs_le]
    push_cast
    constructor <;> linarith
  · have heq : y - ⌊y⌋ = 1 / 2 := le_antisymm (not_lt.mp hgt) (not_lt.mp hlt)
    rw [abs_le]
    constructor <;> linarith
  · have heq : y - ⌊y⌋ = 1 / 2 := le_antisymm (not_lt.mp hgt) (not_lt.mp hlt)
    rw [abs_le]
    push_cast
    constructor <;> linarith

/-- C7: for every uploaded file, `post_image` reports the filename, the
declared content type, and a size that is a multiple of `1/100` within
`1/200` of `N / 1024` kilobytes, where `N` is the byte count. -/
theorem post_image_entries (image : UploadFile) :
    (post_image image).lookup "Filename" =
      some (ImgValue.str image.filename) ∧
    (post_image image).lookup "Format" =
      some (ImgValue.str image.content_type) ∧
    ∃ s : ℚ, (post_image image).lookup "Size(kb)" = some (ImgValue.num s) ∧
      (s * 100).den = 1 ∧
      |s - (image.file.length : ℚ) / 1024| ≤ 1 / 200 := by
  refine ⟨rfl, rfl, pyRound2 ((image.file.length : ℚ) / 1024), rfl, ?_, ?_⟩
  · unfold pyRound2
    rw [div_mul_cancel₀]
    · exact Rat.den_intCast _
    · norm_num
  · have h :=
      abs_roundHalfEven_sub_le ((image.file.length : ℚ) / 1024 * 100)
    unfold pyRound2
    have hsplit :
        (roundHalfEven ((image.file.length : ℚ) / 1024 * 100) : ℚ) / 100 -
            (image.file.length : ℚ) / 1024 =
          ((roundHalfEven ((image.file.length : ℚ) / 1024 * 100) : ℚ) -
            (image.file.length : ℚ) / 1024 * 100) / 100 := by
      ring
    rw [hsplit, abs_div]
    have habs : |(100 : ℚ)| = 100 := by norm_num
    rw [habs]
    linarith

/-- C8: with the other fields satisfying their constraints, a `Person`
body passes validation iff its `age` is in `1..1000`; in particular any
`age ≤ 0` or `age > 1000` fails validation. -/
theorem person_age_validation (p : Person)
    (hfn : 1 ≤ p.first_name.length ∧ p.first_name.length ≤ 50)
    (hln : 1 ≤ p.last_name.length ∧ p.last_name.length ≤ 50)
    (hpw : 8 ≤ p.password.length) :
    (p.validate = true ↔ 0 < p.age ∧ p.age ≤ 1000) ∧
    ((p.age ≤ 0 ∨ 1000 < p.age) → p.validate = false) := by
  have hiff : p.validate = true ↔ 0 < p.age ∧ p.age ≤ 1000 := by
    simp [Person.validate, PersonBase.validate, hfn.1, hfn.2, hln.1, hln.2,
      hpw]
  refine ⟨hiff, fun hbad => ?_⟩
  cases hv : p.validate
  · rfl
  · exact absurd (hiff.mp hv) (by omega)

/-- Witness for C8 at `samplePerson`. -/
theorem person_age_validation_witness :
    (1 ≤ samplePerson.first_name.length ∧
      samplePerson.first_name.length ≤ 50) ∧
    (1 ≤ samplePerson.last_name.length ∧
      samplePerson.last_name.length ≤ 50) ∧
    8 ≤ samplePerson.password.length ∧
    (samplePerson.validate = true ↔
      0 < samplePerson.age ∧ samplePerson.age ≤ 1000) :=
  ⟨by decide, by decide, by decide,
   (person_age_validation samplePerson (by decide) (by decide)
     (by decide)).1⟩

/-- C9: for every username longer than 20 characters, `login` fails with
a validation error and never produces the echoing success response. -/
theorem login_rejects_long_username (username password : String)
    (h : 20 < username.length) :
    login username password =
      Except.error ⟨"ensure this value has at most 20 characters"⟩ ∧
    ∀ out : LoginOut, login username password ≠ Except.ok out := by
  have hif : ¬ username.length ≤ 20 := by omega
  constructor
  · simp [login, LoginOut.new, hif]
  · intro out heq
    simp [login, LoginOut.new, hif] at heq

/-- Witness for C9 at a 22-character username. -/
theorem login_rejects_long_username_witness :
    20 < ("abcdefghijklmnopqrstuv" : String).length ∧
    login "abcdefghijklmnopqrstuv" "pw" =
      Except.error ⟨"ensure this value has at most 20 characters"⟩ :=
  ⟨by decide,
   (login_rejects_long_username "abcdefghijklmnopqrstuv" "pw"
     (by decide)).1⟩

/-- C10: with the optional `name` query parameter omitted (its default
`None`), the query detail handler still returns the single-entry mapping
whose key is `None` and whose value is the given age string. -/
theorem show_person_query_omitted_name (age : String) :
    show_person_query Option.none age = [(Option.none, age)] :=
  rfl

end FastApiSandbox
